import Mathlib

/-!
Verification of the persisto stage manager and database registry.

The definitions below are a shallow embedding of the Go sources:
  src/src/internal/stages/stages.go   (first document: the current version)
  src/unnamed/part_002                (utils: IsWriteOperation)
  src/unnamed/part_004                (databases: removeFromDatabasesList)
  src/unnamed/part_005                (databases: registry, Database record)
  src/unnamed/part_006 and part_007   (stages: RemoveFromStage variants)
  src/.goreleaser.yml                 (routes: the create-database handler)

Machine integers: Go uint is 64 bits; stage arithmetic is modelled on Nat
with explicit wraparound where the Go code can wrap (Database.Delete).
Time is modelled as Int nanoseconds.  SQL and network calls are modelled
as environment oracles: they perform I/O only and never mutate the
in-memory record, which matches the Go code embedded here.
-/

namespace Persisto

/-- Configuration knobs used by the embedded code, mirroring
utils.Config (Storage.Memory.StageNumber, Storage.Local.StageNumber,
Storage.Remote.StageNumber, Storage.Local.DirectoryPath,
Settings.PersistenceStage, Settings.StageTimeoutSeconds,
Settings.AutoSyncEnabled, Settings.DefaultDatabaseCreationStage).
Defaults per the configuration source are 1, 2, 3, "./storage", 3,
300, true, 3. -/
structure Config where
  memoryStageNumber : Nat
  localStageNumber : Nat
  remoteStageNumber : Nat
  localDirectoryPath : String
  persistenceStage : Nat
  stageTimeoutSeconds : Int
  autoSyncEnabled : Bool
  defaultCreationStage : Nat
deriving DecidableEq, Repr

/-- The Database record of src/unnamed/part_005: Path, Name, Stage,
LastAccessed, RequestCount.  The per-record lock is a concurrency
primitive and is not part of the state.  LastAccessed is Int
nanoseconds. -/
structure Database where
  path : String
  name : String
  stage : Nat
  lastAccessed : Int
  requestCount : Nat
deriving DecidableEq, Repr

/-- Outcomes of the external effects (SQL connections, pings, copies,
backend deletions).  Each field answers: does this I/O operation
succeed in the modelled run?  The Go functions embedded here never
mutate the record through these calls, so a Bool outcome is a faithful
abstraction. -/
structure Env where
  syncOk : Nat → Bool
  integrityOk : Bool
  sourceOpenOk : Bool
  sourcePingOk : Bool
  initOk : Bool
  localDeleteOk : Bool
  remoteDeleteOk : Bool

/-! ### Go string helpers (strings.TrimSpace, strings.ToUpper,
strings.HasPrefix restricted to the ASCII range, which covers every
keyword the classifier compares against). -/

/-- ASCII whitespace recognised by Go unicode.IsSpace: tab, newline,
vertical tab, form feed, carriage return, space. -/
def goIsSpace (c : Char) : Bool :=
  (c.toNat == 9) || (c.toNat == 10) || (c.toNat == 11) || (c.toNat == 12) ||
    (c.toNat == 13) || (c.toNat == 32)

/-- ASCII uppercase mapping of Go strings.ToUpper. -/
def goToUpper (c : Char) : Char :=
  if 97 ≤ c.toNat ∧ c.toNat ≤ 122 then Char.ofNat (c.toNat - 32) else c

/-- Drop trailing whitespace from a character list. -/
def dropTrailingSpace (l : List Char) : List Char :=
  ((l.reverse).dropWhile goIsSpace).reverse

/-- Go strings.TrimSpace on a character list. -/
def goTrimSpace (l : List Char) : List Char :=
  dropTrailingSpace (l.dropWhile goIsSpace)

/-- The write keywords of utils.IsWriteOperation (src/unnamed/part_002). -/
def writeOperations : List (List Char) :=
  ["INSERT".data, "UPDATE".data, "DELETE".data, "CREATE".data, "DROP".data, "ALTER".data]

/-- Embedding of utils.IsWriteOperation (src/unnamed/part_002 lines
73-83): uppercase the trimmed statement and test whether one of the six
keywords is a string prefix of it. -/
def isWriteOperation (q : List Char) : Bool :=
  writeOperations.any (fun op => op.isPrefixOf ((goTrimSpace q).map goToUpper))

/-- The first token of a statement: the maximal run of non-whitespace
characters after leading whitespace.  This is the notion the spec
sentence about IsWriteOperation uses; it is defined independently of the
embedded code for comparison. -/
def firstToken (q : List Char) : List Char :=
  (q.dropWhile goIsSpace).takeWhile (fun c => !goIsSpace c)

/-! ### Stage arithmetic helpers (package utils)

The utils stage helpers (IsValidStage, GetValidStageRange,
IsClosestStage, GetNextCloserStage, IsFarthestStage,
GetNextFartherStage, GetFarthestStage, GetLocalStage, GetRemoteStage,
IsRemovableStage) are called by the sources under src/ but their own
file is not part of src/; they are modelled from the spec. -/

/-- Modelled from the spec: the lowest configured tier index (tiers are
totally ordered by index; lower = closer to the client). -/
def minStage (cfg : Config) : Nat :=
  min cfg.memoryStageNumber (min cfg.localStageNumber cfg.remoteStageNumber)

/-- Modelled from the spec: the highest configured tier index. -/
def maxStage (cfg : Config) : Nat :=
  max cfg.memoryStageNumber (max cfg.localStageNumber cfg.remoteStageNumber)

/-- Modelled from the spec: utils.IsValidStage is absent from src/; a
stage is valid when it lies within the configured tier range, matching
GetValidStageRange used in the MoveToStage error message. -/
def IsValidStage (cfg : Config) (s : Nat) : Bool :=
  decide (minStage cfg ≤ s) && decide (s ≤ maxStage cfg)

/-- Modelled from the spec: utils.IsClosestStage is absent from src/;
a record at or below the lowest tier index is at the closest stage. -/
def IsClosestStage (cfg : Config) (s : Nat) : Bool :=
  decide (s ≤ minStage cfg)

/-- Modelled from the spec: utils.IsFarthestStage is absent from src/;
a record at or above the highest tier index is at the farthest stage. -/
def IsFarthestStage (cfg : Config) (s : Nat) : Bool :=
  decide (maxStage cfg ≤ s)

/-- Modelled from the spec: utils.GetFarthestStage is absent from src/;
the farthest stage is the highest configured tier index. -/
def GetFarthestStage (cfg : Config) : Nat := maxStage cfg

/-- Modelled from the spec: utils.GetNextCloserStage is absent from
src/; nextCloser(s) is the greatest configured tier index strictly
below s, or 0 when none exists.  The if-chain realises this under the
configured ordering memory < local < remote. -/
def GetNextCloserStage (cfg : Config) (s : Nat) : Nat :=
  if cfg.remoteStageNumber < s then cfg.remoteStageNumber
  else if cfg.localStageNumber < s then cfg.localStageNumber
  else if cfg.memoryStageNumber < s then cfg.memoryStageNumber
  else 0

/-- Modelled from the spec: utils.GetNextFartherStage is absent from
src/; nextFarther(s) is the least configured tier index strictly above
s, or 0 when none exists.  The if-chain realises this under the
configured ordering memory < local < remote. -/
def GetNextFartherStage (cfg : Config) (s : Nat) : Nat :=
  if s < cfg.memoryStageNumber then cfg.memoryStageNumber
  else if s < cfg.localStageNumber then cfg.localStageNumber
  else if s < cfg.remoteStageNumber then cfg.remoteStageNumber
  else 0

/-! ### Database record operations (src/unnamed/part_005) -/

/-- Embedding of Database.GetConnectionString (src/unnamed/part_005
lines 66-82).  The Go switch on database.Stage is an ordered
first-match, hence the if-chain.  The second component is the returned
error: the Go code returns nil on every path, including the default
branch, which logs and falls back to the disk URI. -/
def GetConnectionString (cfg : Config) (d : Database) : String × Option String :=
  if d.stage = cfg.memoryStageNumber then
    ("file:/" ++ d.name ++ "?vfs=memory", none)
  else if d.stage = cfg.localStageNumber then
    ("file:" ++ d.path ++ "?vfs=disk", none)
  else if d.stage = cfg.remoteStageNumber then
    let dbName := if (".db".data).isSuffixOf d.name.data then d.name else d.name ++ ".db"
    ("file:" ++ dbName ++ "?vfs=r2", none)
  else
    ("file:" ++ d.path ++ "?vfs=disk", none)

/-! ### Stage manager (src/src/internal/stages/stages.go, first
document) -/

/-- Embedding of updateDatabasePath (stages.go lines 362-371): the
switch handles only the local and remote stages; any other target
leaves the path untouched. -/
def updateDatabasePath (cfg : Config) (d : Database) (targetStage : Nat) : Database :=
  if targetStage = cfg.localStageNumber then
    { d with path := cfg.localDirectoryPath ++ "/" ++ d.name ++ ".db" }
  else if targetStage = cfg.remoteStageNumber then
    { d with path := d.name }
  else d

/-- Embedding of syncToStage (stages.go lines 101-150): it opens and
pings source and target connections and copies data between stages;
all of that is I/O and it never mutates the record (no SetStage or
SetPath call), so only its success is modelled, through the
environment. -/
def syncToStage (env : Env) (targetStage : Nat) : Bool :=
  env.syncOk targetStage

/-- Result channel of MoveToStage: ok corresponds to a nil error. -/
inductive MoveResult where
  | ok
  | err
deriving DecidableEq, Repr

/-- Embedding of MoveToStage (stages.go lines 55-98).  Validates the
target, no-ops when the record is already there, syncs data to the
target stage, then updates stage and path.  For promotions
(target below the original stage) it re-reads the connection string -
restoring stage and path if that fails - and runs an integrity check
whose failure is only logged (it changes neither the state nor the
result). -/
def MoveToStage (cfg : Config) (env : Env) (d : Database) (targetStage : Nat) :
    Database × MoveResult :=
  if ¬ IsValidStage cfg targetStage then (d, .err)
  else if d.stage = targetStage then (d, .ok)
  else if ¬ syncToStage env targetStage then (d, .err)
  else
    let originalStage := d.stage
    let d1 := updateDatabasePath cfg { d with stage := targetStage } targetStage
    if targetStage < originalStage then
      match (GetConnectionString cfg d1).2 with
      | some _ => (updateDatabasePath cfg { d1 with stage := originalStage } originalStage, .err)
      | none => (d1, .ok)
    else (d1, .ok)

/-- Embedding of PromoteToCloserStage (stages.go lines 177-240).  Under
the record write lock: no-op at the closest stage or when no closer
stage exists; otherwise the request count is reset to 0, then the
source is probed (connection string, open, ping), aborting on failure,
and finally MoveToStage runs. -/
def PromoteToCloserStage (cfg : Config) (env : Env) (d : Database) : Database :=
  if IsClosestStage cfg d.stage then d
  else
    let targetStage := GetNextCloserStage cfg d.stage
    if targetStage = 0 then d
    else
      let d1 := { d with requestCount := 0 }
      match (GetConnectionString cfg d1).2 with
      | some _ => d1
      | none =>
        if ¬ env.sourceOpenOk then d1
        else if ¬ env.sourcePingOk then d1
        else (MoveToStage cfg env d1 targetStage).1

/-- The stages visited by the pre-demotion sync loop of
demoteToFartherStage (stages.go lines 286-315): every configured stage
above s up to the farthest one; the loop continues past sync or
verification failures (they are only logged), and verifyDatabaseAtStage
restores the stage it temporarily sets, so the record is unchanged.
Each step moves to a strictly larger configured tier index, of which
there are three, so fuel 4 covers every run of the Go loop. -/
def demoteSyncStages (cfg : Config) : Nat → Nat → List Nat
  | 0, _ => []
  | fuel + 1, s =>
    if s ≠ 0 ∧ s ≤ GetFarthestStage cfg then
      s :: demoteSyncStages cfg fuel (GetNextFartherStage cfg s)
    else []

/-- Embedding of demoteToFartherStage (stages.go lines 242-331).  Under
the record write lock: no-op at the farthest stage; re-check
inactivity (time.Since(lastAccessed) against StageTimeoutSeconds
seconds, in nanoseconds) and abort when the record was accessed
recently; otherwise run the pre-demotion sync loop when auto-sync is
on, reset the request count and call MoveToStage.  The second
component lists the stages for which a cross-stage copy was
attempted. -/
def demoteToFartherStage (cfg : Config) (env : Env) (now : Int) (d : Database) :
    Database × List Nat :=
  if IsFarthestStage cfg d.stage then (d, [])
  else if now - d.lastAccessed < cfg.stageTimeoutSeconds * 1000000000 then (d, [])
  else
    let targetStage := GetNextFartherStage cfg d.stage
    if targetStage = 0 then (d, [])
    else
      let preSync :=
        if cfg.autoSyncEnabled ∧ ¬ IsFarthestStage cfg d.stage then
          demoteSyncStages cfg 4 (GetNextFartherStage cfg d.stage)
        else []
      let d1 := { d with requestCount := 0 }
      ((MoveToStage cfg env d1 targetStage).1, preSync ++ [targetStage])

/-- The loop of SyncToUpperStages (stages.go lines 346-357): starting
from nextFarther(current), sync each stage while it is nonzero and at
most the farthest stage, stopping at the first failed sync (break).
Each step moves to a strictly larger configured tier index, of which
there are three, so fuel 4 covers every run of the Go loop.  Returns
the stages for which syncToStage was invoked. -/
def syncUpperLoop (cfg : Config) (env : Env) : Nat → Nat → List Nat
  | 0, _ => []
  | fuel + 1, s =>
    if s ≠ 0 ∧ s ≤ GetFarthestStage cfg then
      if syncToStage env s then s :: syncUpperLoop cfg env fuel (GetNextFartherStage cfg s)
      else [s]
    else []

/-- Embedding of SyncToUpperStages (stages.go lines 333-360): a no-op
when auto-sync is disabled; otherwise, under the record write lock,
runs the sync loop.  The loop body never mutates the record.  The
second component lists the stages for which syncToStage was invoked. -/
def SyncToUpperStages (cfg : Config) (env : Env) (d : Database) :
    Database × List Nat :=
  if ¬ cfg.autoSyncEnabled then (d, [])
  else (d, syncUpperLoop cfg env 4 (GetNextFartherStage cfg d.stage))

/-- Truncation of a list of sync targets at the first failure: the
failing stage is still attempted, later ones are not.  Spec-side
helper used to state what the sync loop attempts. -/
def stopAtFirstFail (ok : Nat → Bool) : List Nat → List Nat
  | [] => []
  | s :: rest => if ok s then s :: stopAtFirstFail ok rest else [s]

/-- Spec-side helper: the configured tier indices strictly above s, in
increasing order, assuming memory < local < remote. -/
def upperStagesList (cfg : Config) (s : Nat) : List Nat :=
  (if s < cfg.memoryStageNumber then [cfg.memoryStageNumber] else []) ++
  (if s < cfg.localStageNumber then [cfg.localStageNumber] else []) ++
  (if s < cfg.remoteStageNumber then [cfg.remoteStageNumber] else [])

/-! ### Database registry (src/unnamed/part_005, part_004) -/

/-- DEFAULT_DATABASE_PATH of src/unnamed/part_005. -/
def DEFAULT_DATABASE_PATH : String := "./storage"

/-- Embedding of Databases.FindByName (src/unnamed/part_005 lines
84-91): first record whose Name matches; the Go NotFound error is the
none case. -/
def FindByName (items : List Database) (name : String) : Option Database :=
  items.find? (fun db => db.name == name)

/-- Embedding of Databases.CreateDatabaseAndInitialize
(src/unnamed/part_005 lines 93-125): build the stage-dependent path
(memory: /name; local: DEFAULT_DATABASE_PATH/name.db; remote: name;
otherwise an invalid-stage error), construct the record with the
current time and a zero request count, run the connection
initialization (I/O whose success comes from the environment), and
append the record to the registry on success.  The Bool component is
the error flag.  Note the Go function performs no duplicate-name
check. -/
def createDatabaseAndInit (cfg : Config) (env : Env) (now : Int)
    (items : List Database) (name : String) (stage : Nat) :
    List Database × Bool :=
  let path? : Option String :=
    if stage = cfg.memoryStageNumber then some ("/" ++ name)
    else if stage = cfg.localStageNumber then
      some (DEFAULT_DATABASE_PATH ++ "/" ++ name ++ ".db")
    else if stage = cfg.remoteStageNumber then some name
    else none
  match path? with
  | none => (items, true)
  | some path =>
    if env.initOk then
      (items ++ [{ path := path, name := name, stage := stage,
                   lastAccessed := now, requestCount := 0 }], false)
    else (items, true)

/-- Result of the create-database endpoint. -/
inductive CreateResult where
  | created
  | conflict
  | failed
deriving DecidableEq, Repr

/-- Embedding of stages.GetConfigDefaultStage (stages.go lines
161-163): returns Settings.DefaultDatabaseCreationStage. -/
def GetConfigDefaultStage (cfg : Config) : Nat := cfg.defaultCreationStage

/-- Embedding of the create-database route handler (package routes,
src/.goreleaser.yml lines 235-263): FindByName on the registry; when
it succeeds the request is rejected with HTTP 409 Conflict and the
registry is untouched; otherwise CreateDatabaseAndInitialize runs with
the configured default creation stage (stages.GetConfigDefaultStage())
and an initialization error surfaces as HTTP 500. -/
def createDatabaseEndpoint (cfg : Config) (env : Env) (now : Int)
    (items : List Database) (name : String) :
    List Database × CreateResult :=
  match FindByName items name with
  | some _ => (items, .conflict)
  | none =>
    let r := createDatabaseAndInit cfg env now items name (GetConfigDefaultStage cfg)
    (r.1, if r.2 then .failed else .created)

/-- Embedding of Database.removeFromDatabasesList
(src/unnamed/part_004 lines 11-34): an error only when the registry is
not initialized; otherwise the first record with a matching name is
removed (a missing record is only logged).  The Bool component is the
error flag. -/
def removeFromDatabasesList (dbs : Option (List Database)) (name : String) :
    Option (List Database) × Bool :=
  match dbs with
  | none => (none, true)
  | some items => (some (items.eraseP (fun db => db.name == name)), false)

/-! ### RemoveFromStage (src/unnamed/part_006 and part_007) -/

/-- A deletion attempted against a storage backend. -/
inductive DeleteAction where
  | memKey (key : String)
  | localFile (path : String)
  | remoteObject (key : String)
deriving DecidableEq, Repr

/-- Embedding of removeFromMemoryStage (src/unnamed/part_006): deletes
the memory key; never returns an error. -/
def removeFromMemoryStage (d : Database) : Bool × List DeleteAction :=
  (false, [.memKey d.name])

/-- Embedding of removeFromLocalStage: deletes the local file at the
record path; the error flag reflects the filesystem outcome. -/
def removeFromLocalStage (env : Env) (d : Database) : Bool × List DeleteAction :=
  (!env.localDeleteOk, [.localFile d.path])

/-- Embedding of removeFromR2Stage: deletes the remote object keyed
name(.db); the error flag reflects the remote outcome. -/
def removeFromR2Stage (env : Env) (d : Database) : Bool × List DeleteAction :=
  let r2Key := if (".db".data).isSuffixOf d.name.data then d.name else d.name ++ ".db"
  (!env.remoteDeleteOk, [.remoteObject r2Key])

/-- Embedding of RemoveFromStage (src/unnamed/part_006 lines 15-52):
reject stages outside 1..3, reject the record's current active stage,
then dispatch on the configured stage numbers; a stage matching no
backend is logged and returns nil.  First component is the error flag,
second the attempted backend deletions. -/
def RemoveFromStage (cfg : Config) (env : Env) (d : Database) (stage : Nat) :
    Bool × List DeleteAction :=
  if stage < 1 ∨ 3 < stage then (true, [])
  else if stage = d.stage then (true, [])
  else if stage = cfg.memoryStageNumber then removeFromMemoryStage d
  else if stage = cfg.localStageNumber then removeFromLocalStage env d
  else if stage = cfg.remoteStageNumber then removeFromR2Stage env d
  else (false, [])

/-- Modelled from the spec: utils.IsRemovableStage is absent from src/;
only non-active tiers are reclaimable and the variant of
RemoveFromStage in src/unnamed/part_007 dispatches only to the local
and remote backends, so those two tiers are the removable ones. -/
def IsRemovableStage (cfg : Config) (s : Nat) : Bool :=
  decide (s = cfg.localStageNumber ∨ s = cfg.remoteStageNumber)

/-- Embedding of the RemoveFromStage variant of src/unnamed/part_007
lines 14-50: reject non-removable stages, reject the record's current
active stage, then dispatch to the local or remote backend; an
unmatched stage is logged and returns nil. -/
def RemoveFromStageRemovable (cfg : Config) (env : Env) (d : Database) (stage : Nat) :
    Bool × List DeleteAction :=
  if ¬ IsRemovableStage cfg stage then (true, [])
  else if stage = d.stage then (true, [])
  else if stage = cfg.localStageNumber then removeFromLocalStage env d
  else if stage = cfg.remoteStageNumber then removeFromR2Stage env d
  else (false, [])

/-! ### Database.Delete (src/unnamed/part_005 lines 268-312) -/

/-- Decrement of a Go uint (64 bits), wrapping at zero. -/
def decUint64 (s : Nat) : Nat := if s = 0 then 2 ^ 64 - 1 else s - 1

/-- The stage-removal loop of Database.Delete:
for stage := persistentStage; stage >= database.Stage; stage-- it
calls RemoveFromStage(database, stage); removal errors are logged and
never affect control flow.  The loop variable is an unsigned 64-bit
integer, so the decrement wraps at zero; fuel bounds the modelled
iterations and none marks a run that has not terminated within the
fuel. -/
def deleteStageLoop : Nat → Nat → Nat → Option (List Nat)
  | 0, _, _ => none
  | fuel + 1, s, dbStage =>
    if dbStage ≤ s then
      match deleteStageLoop fuel (decUint64 s) dbStage with
      | none => none
      | some rest => some (s :: rest)
    else some []

/-- Outcome of Database.Delete. -/
structure DeleteOutcome where
  removeCalls : List Nat
  registry : Option (List Database)
  isError : Bool
deriving DecidableEq, Repr

/-- Embedding of Database.Delete (src/unnamed/part_005 lines 268-312):
under the record write lock, iterate stages downward from the
persistence stage calling RemoveFromStage for each (errors logged,
never aborting), then unlink the record from the registry; only an
unlink failure is returned as the error.  none marks a run whose
stage-removal loop does not terminate within a full 64-bit wrap of the
loop counter. -/
def Delete (cfg : Config) (dbs : Option (List Database)) (d : Database) :
    Option DeleteOutcome :=
  match deleteStageLoop (2 ^ 64) cfg.persistenceStage d.stage with
  | none => none
  | some calls =>
    let r := removeFromDatabasesList dbs d.name
    some { removeCalls := calls, registry := r.1, isError := r.2 }

/-- Spec-side helper: the n stages counting down from p. -/
def descFrom (p : Nat) : Nat → List Nat
  | 0 => []
  | n + 1 => p :: descFrom (p - 1) n

/-- Spec-side helper: the descending list p, p-1, ..., lo (empty when
p < lo). -/
def descRange (p lo : Nat) : List Nat := descFrom p (p + 1 - lo)

/-- The default configuration (spec section 6 and the configuration
source): memory tier 1, local tier 2, remote tier 3, storage directory
./storage, persistence stage 3, stage timeout 300 s, auto-sync on,
default creation stage 3. -/
def defaultConfig : Config :=
  { memoryStageNumber := 1, localStageNumber := 2, remoteStageNumber := 3,
    localDirectoryPath := "./storage", persistenceStage := 3,
    stageTimeoutSeconds := 300, autoSyncEnabled := true,
    defaultCreationStage := 3 }

/-- An environment in which every external operation succeeds. -/
def allOkEnv : Env :=
  { syncOk := fun _ => true, integrityOk := true, sourceOpenOk := true,
    sourcePingOk := true, initOk := true, localDeleteOk := true,
    remoteDeleteOk := true }

/-- An environment in which the source-connectivity ping fails. -/
def pingFailEnv : Env := { allOkEnv with sourcePingOk := false }

/-- The default configuration with the persistence stage lowered to the
local tier, a setting the spec allows (persistence_stage is an
independent knob). -/
def persistenceTwoConfig : Config := { defaultConfig with persistenceStage := 2 }

/-! ### Lemmas about the statement classifier -/

theorem toNat_charOfNat (n : Nat) (h1 : 65 ≤ n) (h2 : n ≤ 90) :
    (Char.ofNat n).toNat = n := by
  have hv : n.isValidChar := Or.inl (by omega)
  simp [Char.ofNat, hv, Char.ofNatAux, Char.toNat, UInt32.toNat, UInt32.ofNatTruncate]

theorem goIsSpace_goToUpper (c : Char) : goIsSpace (goToUpper c) = goIsSpace c := by
  unfold goToUpper
  by_cases h : 97 ≤ c.toNat ∧ c.toNat ≤ 122
  · obtain ⟨h1, h2⟩ := h
    rw [if_pos ⟨h1, h2⟩]
    have hval : (Char.ofNat (c.toNat - 32)).toNat = c.toNat - 32 :=
      toNat_charOfNat _ (by omega) (by omega)
    have hL : goIsSpace (Char.ofNat (c.toNat - 32)) = false := by
      simp only [goIsSpace, hval, Bool.or_eq_false_iff, beq_eq_false_iff_ne, ne_eq]
      omega
    have hR : goIsSpace c = false := by
      simp only [goIsSpace, Bool.or_eq_false_iff, beq_eq_false_iff_ne, ne_eq]
      omega
    rw [hL, hR]
  · rw [if_neg h]

theorem takeWhile_append_allSpace (a t : List Char)
    (ht : ∀ x ∈ t, goIsSpace x = true) :
    (a ++ t).takeWhile (fun c => !goIsSpace c) = a.takeWhile (fun c => !goIsSpace c) := by
  induction a with
  | nil =>
    simp only [List.nil_append, List.takeWhile_nil]
    cases t with
    | nil => rfl
    | cons x xs =>
      have hx := ht x (by simp)
      simp [List.takeWhile_cons, hx]
  | cons c cs ih =>
    simp only [List.cons_append, List.takeWhile_cons]
    by_cases hc : goIsSpace c
    · simp [hc]
    · simp only [hc, Bool.not_false, if_true, ih]

theorem isPrefixOf_takeWhile_nonspace (K : List Char)
    (hK : ∀ c ∈ K, goIsSpace c = false) (t : List Char) :
    K.isPrefixOf (t.takeWhile (fun c => !goIsSpace c)) = K.isPrefixOf t := by
  induction K generalizing t with
  | nil => simp [List.isPrefixOf]
  | cons k ks ih =>
    cases t with
    | nil => rfl
    | cons c cs =>
      have hk : goIsSpace k = false := hK k (by simp)
      by_cases hc : goIsSpace c
      · have hkc : (k == c) = false := by
          simp only [beq_eq_false_iff_ne, ne_eq]
          intro he; rw [he] at hk; rw [hk] at hc; exact Bool.false_ne_true hc

        simp [List.takeWhile_cons, hc, List.isPrefixOf, hkc]
      · have hks : ∀ x ∈ ks, goIsSpace x = false := fun x hx => hK x (by simp [hx])
        simp [List.takeWhile_cons, hc, List.isPrefixOf, ih hks]

theorem dropTrailingSpace_decomposition (l : List Char) :
    l = dropTrailingSpace l ++ ((l.reverse.takeWhile goIsSpace).reverse) := by
  unfold dropTrailingSpace
  conv_lhs => rw [← l.reverse_reverse]
  rw [← List.reverse_append]
  congr 1
  exact (List.takeWhile_append_dropWhile _ _).symm

theorem takeWhile_nonspace_goTrimSpace (q : List Char) :
    (goTrimSpace q).takeWhile (fun c => !goIsSpace c) = firstToken q := by
  unfold goTrimSpace firstToken
  set s := q.dropWhile goIsSpace with hs
  have hd := dropTrailingSpace_decomposition s
  have ht : ∀ x ∈ (s.reverse.takeWhile goIsSpace).reverse, goIsSpace x = true := by
    intro x hx
    rw [List.mem_reverse] at hx
    exact List.mem_takeWhile_imp hx
  calc (dropTrailingSpace s).takeWhile (fun c => !goIsSpace c)
      = ((dropTrailingSpace s) ++ (s.reverse.takeWhile goIsSpace).reverse).takeWhile
          (fun c => !goIsSpace c) := (takeWhile_append_allSpace _ _ ht).symm
    _ = s.takeWhile (fun c => !goIsSpace c) := by rw [← hd]

theorem takeWhile_nonspace_map_goToUpper (l : List Char) :
    (l.map goToUpper).takeWhile (fun c => !goIsSpace c)
      = (l.takeWhile (fun c => !goIsSpace c)).map goToUpper := by
  rw [List.takeWhile_map]
  have hfun : ((fun c => !goIsSpace c) ∘ goToUpper) = (fun c => !goIsSpace c) := by
    funext c
    simp [Function.comp, goIsSpace_goToUpper]
  rw [hfun]

theorem isPrefixOf_goTrimSpace_firstToken (K : List Char)
    (hK : ∀ c ∈ K, goIsSpace c = false) (q : List Char) :
    K.isPrefixOf ((goTrimSpace q).map goToUpper)
      = K.isPrefixOf ((firstToken q).map goToUpper) := by
  rw [← isPrefixOf_takeWhile_nonspace K hK ((goTrimSpace q).map goToUpper)]
  rw [takeWhile_nonspace_map_goToUpper, takeWhile_nonspace_goTrimSpace]

/-- C5 counterexample: the claim says IsWriteOperation(q) is true if and
only if the first token of q (case-insensitive, after leading
whitespace) is one of the six keywords.  The statement "INSERTED INTO t"
has first token INSERTED, which is not one of the keywords, yet
IsWriteOperation returns true because strings.HasPrefix only tests a
string prefix. -/
theorem c5_isWriteOperation_counterexample :
    isWriteOperation "INSERTED INTO t".data = true ∧
      (firstToken "INSERTED INTO t".data).map goToUpper ∉ writeOperations := by
  constructor
  · decide
  · decide

/-- C5 amended: IsWriteOperation(q) is true exactly when one of INSERT,
UPDATE, DELETE, CREATE, DROP, ALTER is a string prefix of the first
token of q (case-insensitive, after leading whitespace); a first token
that merely extends a keyword, such as INSERTED, is also classified as
a write. -/
theorem c5_isWriteOperation_prefix_of_firstToken (q : List Char) :
    isWriteOperation q
      = writeOperations.any (fun op => op.isPrefixOf ((firstToken q).map goToUpper)) := by
  unfold isWriteOperation writeOperations
  simp only [List.any_cons, List.any_nil]
  rw [isPrefixOf_goTrimSpace_firstToken "INSERT".data (by decide) q,
      isPrefixOf_goTrimSpace_firstToken "UPDATE".data (by decide) q,
      isPrefixOf_goTrimSpace_firstToken "DELETE".data (by decide) q,
      isPrefixOf_goTrimSpace_firstToken "CREATE".data (by decide) q,
      isPrefixOf_goTrimSpace_firstToken "DROP".data (by decide) q,
      isPrefixOf_goTrimSpace_firstToken "ALTER".data (by decide) q]

/-! ### Lemmas about the stage manager -/

theorem getConnectionString_snd_eq_none (cfg : Config) (d : Database) :
    (GetConnectionString cfg d).2 = none := by
  unfold GetConnectionString
  split_ifs <;> rfl

theorem updateDatabasePath_stage (cfg : Config) (d : Database) (s : Nat) :
    (updateDatabasePath cfg d s).stage = d.stage := by
  unfold updateDatabasePath
  split_ifs <;> rfl

theorem updateDatabasePath_requestCount (cfg : Config) (d : Database) (s : Nat) :
    (updateDatabasePath cfg d s).requestCount = d.requestCount := by
  unfold updateDatabasePath
  split_ifs <;> rfl

/-- C1 counterexample: the claim says that a successful MoveToStage
leaves request_count at 0, but MoveToStage never touches the request
count (the promotion and demotion callers reset it before calling);
moving a record with request_count 5 from stage 3 to stage 2 succeeds
and leaves the count at 5. -/
theorem c1_MoveToStage_requestCount_counterexample :
    (MoveToStage defaultConfig allOkEnv ⟨"a", "a", 3, 0, 5⟩ 2).2 = MoveResult.ok ∧
      (MoveToStage defaultConfig allOkEnv ⟨"a", "a", 3, 0, 5⟩ 2).1.requestCount ≠ 0 := by
  constructor
  · decide
  · decide

/-- C1 amended: when MoveToStage(r, t) returns success, r.stage = t and
r.request_count equals its pre-call value (the reset to 0 is performed
by the promotion and demotion callers, not by MoveToStage); when it
returns an error, r.stage equals its pre-call value. -/
theorem c1_MoveToStage_stage_requestCount (cfg : Config) (env : Env)
    (d : Database) (t : Nat) :
    ((MoveToStage cfg env d t).2 = MoveResult.ok →
      (MoveToStage cfg env d t).1.stage = t ∧
        (MoveToStage cfg env d t).1.requestCount = d.requestCount) ∧
    ((MoveToStage cfg env d t).2 = MoveResult.err →
      (MoveToStage cfg env d t).1.stage = d.stage ∧
        (MoveToStage cfg env d t).1.requestCount = d.requestCount) := by
  unfold MoveToStage
  by_cases h1 : IsValidStage cfg t
  case neg =>
    rw [if_pos h1]
    exact ⟨fun hc => (nomatch hc), fun _ => ⟨rfl, rfl⟩⟩
  case pos =>
    rw [if_neg (not_not_intro h1)]
    by_cases h2 : d.stage = t
    case pos =>
      rw [if_pos h2]
      exact ⟨fun _ => ⟨h2, rfl⟩, fun hc => nomatch hc⟩
    case neg =>
      rw [if_neg h2]
      by_cases h3 : syncToStage env t
      case neg =>
        rw [if_pos h3]
        exact ⟨fun hc => (nomatch hc), fun _ => ⟨rfl, rfl⟩⟩
      case pos =>
        rw [if_neg (not_not_intro h3)]
        simp only [getConnectionString_snd_eq_none]
        by_cases h4 : t < d.stage
        · rw [if_pos h4]
          exact ⟨fun _ => ⟨by rw [updateDatabasePath_stage],
                           by rw [updateDatabasePath_requestCount]⟩,
                 fun hc => nomatch hc⟩
        · rw [if_neg h4]
          exact ⟨fun _ => ⟨by rw [updateDatabasePath_stage],
                           by rw [updateDatabasePath_requestCount]⟩,
                 fun hc => nomatch hc⟩

/-- C1 witness: the amended statement at a concrete successful move. -/
theorem c1_witness :
    (MoveToStage defaultConfig allOkEnv ⟨"a", "a", 3, 0, 5⟩ 2).1.stage = 2 ∧
      (MoveToStage defaultConfig allOkEnv ⟨"a", "a", 3, 0, 5⟩ 2).1.requestCount = 5 :=
  (c1_MoveToStage_stage_requestCount defaultConfig allOkEnv ⟨"a", "a", 3, 0, 5⟩ 2).1
    (by decide)

/-- C3 counterexample: the claim says a failed source-connectivity
probe leaves request_count at its pre-call value, but
PromoteToCloserStage resets the count to 0 before probing; a record
with request_count 5 at stage 2 whose ping fails ends with count 0. -/
theorem c3_promote_probe_counterexample :
    (PromoteToCloserStage defaultConfig pingFailEnv ⟨"a", "a", 2, 0, 5⟩).requestCount
      ≠ (⟨"a", "a", 2, 0, 5⟩ : Database).requestCount := by
  decide

/-- C3 amended: for a record not at the closest stage (with an existing
closer target), a failed source connectivity probe makes
PromoteToCloserStage abort with stage, path and last_accessed
unchanged, but with request_count already reset to 0. -/
theorem c3_promote_probe_failure_state (cfg : Config) (env : Env) (d : Database)
    (hnc : IsClosestStage cfg d.stage = false)
    (hnz : GetNextCloserStage cfg d.stage ≠ 0)
    (hprobe : env.sourceOpenOk = false ∨ env.sourcePingOk = false) :
    PromoteToCloserStage cfg env d = { d with requestCount := 0 } := by
  unfold PromoteToCloserStage
  rw [hnc]
  simp only [Bool.false_eq_true, if_false, if_neg hnz, getConnectionString_snd_eq_none]
  rcases hprobe with hopen | hping
  · rw [hopen]
    simp
  · rw [hping]
    by_cases hopen : env.sourceOpenOk <;> simp [hopen]

/-- C3 witness: the amended statement at a concrete record whose ping
probe fails. -/
theorem c3_witness :
    PromoteToCloserStage defaultConfig pingFailEnv ⟨"a", "a", 2, 0, 5⟩
      = { (⟨"a", "a", 2, 0, 5⟩ : Database) with requestCount := 0 } :=
  c3_promote_probe_failure_state defaultConfig pingFailEnv ⟨"a", "a", 2, 0, 5⟩
    (by decide) (by decide) (Or.inr (by decide))

/-- C4 confirmed: a record accessed within the inactivity timeout is
never demoted: when now - last_accessed < timeout (checked again under
the record write lock), demoteToFartherStage returns with the record
unchanged and no copy attempted. -/
theorem c4_demote_recent_access_noop (cfg : Config) (env : Env) (now : Int)
    (d : Database)
    (h : now - d.lastAccessed < cfg.stageTimeoutSeconds * 1000000000) :
    demoteToFartherStage cfg env now d = (d, []) := by
  unfold demoteToFartherStage
  split_ifs with h1 <;> rfl

/-- C4 witness: a recently accessed record at stage 1 is untouched. -/
theorem c4_witness :
    demoteToFartherStage defaultConfig allOkEnv 0 ⟨"a", "a", 1, 0, 5⟩
      = (⟨"a", "a", 1, 0, 5⟩, []) :=
  c4_demote_recent_access_noop defaultConfig allOkEnv 0 ⟨"a", "a", 1, 0, 5⟩ (by decide)

theorem createDatabaseEndpoint_fst_cases (cfg : Config) (env : Env) (now : Int)
    (items : List Database) (name : String) :
    (createDatabaseEndpoint cfg env now items name).1 = items ∨
      (FindByName items name = none ∧ ∃ p,
        (createDatabaseEndpoint cfg env now items name).1
          = items ++ [{ path := p, name := name, stage := GetConfigDefaultStage cfg,
                        lastAccessed := now, requestCount := 0 }]) := by
  unfold createDatabaseEndpoint createDatabaseAndInit
  cases hf : FindByName items name with
  | some dbf => exact Or.inl rfl
  | none =>
    rcases Bool.eq_false_or_eq_true env.initOk with hinit | hinit
    · rw [hinit]
      by_cases hs1 : GetConfigDefaultStage cfg = cfg.memoryStageNumber
      · rw [if_pos hs1]
        exact Or.inr ⟨rfl, "/" ++ name, rfl⟩
      · rw [if_neg hs1]
        by_cases hs2 : GetConfigDefaultStage cfg = cfg.localStageNumber
        · rw [if_pos hs2]
          exact Or.inr ⟨rfl, DEFAULT_DATABASE_PATH ++ "/" ++ name ++ ".db", rfl⟩
        · rw [if_neg hs2]
          by_cases hs3 : GetConfigDefaultStage cfg = cfg.remoteStageNumber
          · rw [if_pos hs3]
            exact Or.inr ⟨rfl, name, rfl⟩
          · rw [if_neg hs3]
            exact Or.inl rfl
    · refine Or.inl ?_
      rw [hinit]
      by_cases hs1 : GetConfigDefaultStage cfg = cfg.memoryStageNumber
      · rw [if_pos hs1]
        rfl
      · rw [if_neg hs1]
        by_cases hs2 : GetConfigDefaultStage cfg = cfg.localStageNumber
        · rw [if_pos hs2]
          rfl
        · rw [if_neg hs2]
          by_cases hs3 : GetConfigDefaultStage cfg = cfg.remoteStageNumber
          · rw [if_pos hs3]
            rfl
          · rw [if_neg hs3]

/-- C2 confirmed: in the create-database route handler (embedded from
the routes package in src/.goreleaser.yml), creating a database whose
name already exists yields HTTP 409 Conflict and leaves the registry
unchanged; creating under a fresh name preserves uniqueness of names;
unlinking a record preserves uniqueness of names. -/
theorem c2_registry_name_uniqueness (cfg : Config) (env : Env) (now : Int)
    (items : List Database) (name : String) :
    (name ∈ items.map Database.name →
      createDatabaseEndpoint cfg env now items name
        = (items, CreateResult.conflict)) ∧
    ((items.map Database.name).Nodup →
      ((createDatabaseEndpoint cfg env now items name).1.map Database.name).Nodup) ∧
    ((items.map Database.name).Nodup →
      ((((removeFromDatabasesList (some items) name).1).getD []).map Database.name).Nodup) := by
  refine ⟨?_, ?_, ?_⟩
  · intro hmem
    unfold createDatabaseEndpoint
    cases hf : FindByName items name with
    | some dbf => rfl
    | none =>
      exfalso
      rw [List.mem_map] at hmem
      obtain ⟨db, hdb, hn⟩ := hmem
      unfold FindByName at hf
      exact (List.find?_eq_none.mp hf db hdb) (by simp [hn])
  · intro hnd
    rcases createDatabaseEndpoint_fst_cases cfg env now items name with
      he | ⟨hf, p, he⟩
    · rw [he]
      exact hnd
    · have hnotin : name ∉ items.map Database.name := by
        intro hmem
        rw [List.mem_map] at hmem
        obtain ⟨db, hdb, hn⟩ := hmem
        unfold FindByName at hf
        exact (List.find?_eq_none.mp hf db hdb) (by simp [hn])
      rw [he, List.map_append, List.nodup_append]
      refine ⟨hnd, List.nodup_singleton _, ?_⟩
      intro a ha hb
      simp only [List.map_cons, List.map_nil, List.mem_singleton] at hb
      subst hb
      exact hnotin ha
  · intro hnd
    unfold removeFromDatabasesList
    have hsub : ((items.eraseP (fun db => db.name == name)).map Database.name).Sublist
        (items.map Database.name) :=
      List.Sublist.map Database.name (List.eraseP_sublist items)
    exact hnd.sublist hsub

/-- C2 witness: the conflict branch at a concrete registry holding a
record named a. -/
theorem c2_witness :
    createDatabaseEndpoint defaultConfig allOkEnv 0 [⟨"/a", "a", 1, 0, 0⟩] "a"
      = ([⟨"/a", "a", 1, 0, 0⟩], CreateResult.conflict) :=
  (c2_registry_name_uniqueness defaultConfig allOkEnv 0 [⟨"/a", "a", 1, 0, 0⟩] "a").1
    (by decide)

/-- C8 confirmed: both RemoveFromStage variants reject the record's
current active stage with an error and touch no storage backend, and
likewise reject an out-of-range stage (outside 1..3 for the part_006
variant, non-removable for the part_007 variant) with an error and no
backend deletion. -/
theorem c8_RemoveFromStage_active_and_invalid (cfg : Config) (env : Env)
    (d : Database) (s : Nat) :
    (s = d.stage →
      RemoveFromStage cfg env d s = (true, []) ∧
        RemoveFromStageRemovable cfg env d s = (true, [])) ∧
    (s < 1 ∨ 3 < s → RemoveFromStage cfg env d s = (true, [])) ∧
    (IsRemovableStage cfg s = false →
      RemoveFromStageRemovable cfg env d s = (true, [])) := by
  refine ⟨?_, ?_, ?_⟩
  · intro hs
    constructor
    · unfold RemoveFromStage
      split_ifs with h1 h2 h3 h4 h5 <;> first | rfl | exact absurd hs h2
    · unfold RemoveFromStageRemovable
      split_ifs with h1 h2 h3 h4 <;> first | rfl | exact absurd hs h2
  · intro h
    unfold RemoveFromStage
    split_ifs with h1 h2 h3 h4 h5 <;> first | rfl | exact absurd h h1
  · intro h
    unfold RemoveFromStageRemovable
    split_ifs with h1 h2 h3 h4 <;> first | rfl | simp [h] at h1

/-- C8 witness: removing a record at stage 2 from stage 2 errors in
both variants without touching any backend. -/
theorem c8_witness :
    RemoveFromStage defaultConfig allOkEnv ⟨"p", "n", 2, 0, 0⟩ 2 = (true, []) ∧
      RemoveFromStageRemovable defaultConfig allOkEnv ⟨"p", "n", 2, 0, 0⟩ 2 = (true, []) :=
  (c8_RemoveFromStage_active_and_invalid defaultConfig allOkEnv ⟨"p", "n", 2, 0, 0⟩ 2).1 rfl

/-- C10 counterexample: at the remote stage the code appends .db to the
object key only when the name does not already end in .db, so for a
record named a.db the URI is file:a.db?vfs=r2 rather than the
file:name.db?vfs=r2 shape the claim states for every record. -/
theorem c10_GetConnectionString_remote_suffix_counterexample :
    (GetConnectionString defaultConfig ⟨"a.db", "a.db", 3, 0, 0⟩).1 = "file:a.db?vfs=r2" ∧
      (GetConnectionString defaultConfig ⟨"a.db", "a.db", 3, 0, 0⟩).1
        ≠ "file:" ++ "a.db" ++ ".db" ++ "?vfs=r2" ∧
      (GetConnectionString defaultConfig ⟨"a.db", "a.db", 3, 0, 0⟩).2 = none := by
  refine ⟨by decide, by decide, rfl⟩

/-- C10 amended: GetConnectionString never returns an error; the
memory-stage URI is file:/name?vfs=memory, the local-stage URI is
file:path?vfs=disk, the remote-stage URI is file:key?vfs=r2 where key
is the name with .db appended only when not already that suffix, and
any other stage falls back to the disk URI built from the record path,
with a nil error. -/
theorem c10_GetConnectionString_total (cfg : Config) (d : Database)
    (hml : cfg.memoryStageNumber < cfg.localStageNumber)
    (hlr : cfg.localStageNumber < cfg.remoteStageNumber) :
    (GetConnectionString cfg d).2 = none ∧
    (d.stage = cfg.memoryStageNumber →
      (GetConnectionString cfg d).1 = "file:/" ++ d.name ++ "?vfs=memory") ∧
    (d.stage = cfg.localStageNumber →
      (GetConnectionString cfg d).1 = "file:" ++ d.path ++ "?vfs=disk") ∧
    (d.stage = cfg.remoteStageNumber →
      (GetConnectionString cfg d).1 =
        "file:" ++ (if (".db".data).isSuffixOf d.name.data then d.name
                    else d.name ++ ".db") ++ "?vfs=r2") ∧
    (d.stage ≠ cfg.memoryStageNumber → d.stage ≠ cfg.localStageNumber →
      d.stage ≠ cfg.remoteStageNumber →
      (GetConnectionString cfg d).1 = "file:" ++ d.path ++ "?vfs=disk") := by
  refine ⟨getConnectionString_snd_eq_none cfg d, ?_, ?_, ?_, ?_⟩
  · intro h
    unfold GetConnectionString
    rw [if_pos h]
  · intro h
    unfold GetConnectionString
    rw [if_neg (by omega), if_pos h]
  · intro h
    unfold GetConnectionString
    rw [if_neg (by omega), if_neg (by omega), if_pos h]
  · intro h1 h2 h3
    unfold GetConnectionString
    rw [if_neg h1, if_neg h2, if_neg h3]

theorem maxStage_eq_remote (cfg : Config)
    (hml : cfg.memoryStageNumber < cfg.localStageNumber)
    (hlr : cfg.localStageNumber < cfg.remoteStageNumber) :
    GetFarthestStage cfg = cfg.remoteStageNumber := by
  unfold GetFarthestStage maxStage
  omega

theorem syncUpperLoop_eq_stopAtFirstFail (cfg : Config) (env : Env) (s : Nat)
    (hml : cfg.memoryStageNumber < cfg.localStageNumber)
    (hlr : cfg.localStageNumber < cfg.remoteStageNumber) :
    syncUpperLoop cfg env 4 (GetNextFartherStage cfg s)
      = stopAtFirstFail env.syncOk (upperStagesList cfg s) := by
  have hfar : GetFarthestStage cfg = cfg.remoteStageNumber := maxStage_eq_remote cfg hml hlr
  have e4 : ∀ x, syncUpperLoop cfg env 4 x
      = if x ≠ 0 ∧ x ≤ GetFarthestStage cfg then
          (if syncToStage env x then
            x :: syncUpperLoop cfg env 3 (GetNextFartherStage cfg x)
          else [x])
        else [] := fun _ => rfl
  have e3 : ∀ x, syncUpperLoop cfg env 3 x
      = if x ≠ 0 ∧ x ≤ GetFarthestStage cfg then
          (if syncToStage env x then
            x :: syncUpperLoop cfg env 2 (GetNextFartherStage cfg x)
          else [x])
        else [] := fun _ => rfl
  have e2 : ∀ x, syncUpperLoop cfg env 2 x
      = if x ≠ 0 ∧ x ≤ GetFarthestStage cfg then
          (if syncToStage env x then
            x :: syncUpperLoop cfg env 1 (GetNextFartherStage cfg x)
          else [x])
        else [] := fun _ => rfl
  have e1 : ∀ x, syncUpperLoop cfg env 1 x
      = if x ≠ 0 ∧ x ≤ GetFarthestStage cfg then
          (if syncToStage env x then
            x :: syncUpperLoop cfg env 0 (GetNextFartherStage cfg x)
          else [x])
        else [] := fun _ => rfl
  have e0 : ∀ x, syncUpperLoop cfg env 0 x = [] := fun _ => rfl
  have hnfm : GetNextFartherStage cfg cfg.memoryStageNumber = cfg.localStageNumber := by
    unfold GetNextFartherStage
    rw [if_neg (by omega), if_pos hml]
  have hnfl : GetNextFartherStage cfg cfg.localStageNumber = cfg.remoteStageNumber := by
    unfold GetNextFartherStage
    rw [if_neg (by omega), if_neg (by omega), if_pos hlr]
  have hnfr : GetNextFartherStage cfg cfg.remoteStageNumber = 0 := by
    unfold GetNextFartherStage
    rw [if_neg (by omega), if_neg (by omega), if_neg (by omega)]
  rcases Nat.lt_or_ge s cfg.memoryStageNumber with hA | hB
  · have hnf : GetNextFartherStage cfg s = cfg.memoryStageNumber := by
      unfold GetNextFartherStage
      rw [if_pos hA]
    have hul : upperStagesList cfg s
        = [cfg.memoryStageNumber, cfg.localStageNumber, cfg.remoteStageNumber] := by
      unfold upperStagesList
      rw [if_pos hA, if_pos (by omega), if_pos (by omega)]
      rfl
    have hm0 : cfg.memoryStageNumber ≠ 0 := by omega
    have hl0 : cfg.localStageNumber ≠ 0 := by omega
    have hr0 : cfg.remoteStageNumber ≠ 0 := by omega
    have hmr : cfg.memoryStageNumber ≤ cfg.remoteStageNumber := by omega
    have hlr2 : cfg.localStageNumber ≤ cfg.remoteStageNumber := by omega
    rw [hnf, hul]
    simp [e4, e3, e2, e1, e0, hfar, hnfm, hnfl, hnfr, syncToStage, stopAtFirstFail,
      hm0, hl0, hr0, hmr, hlr2]
  rcases Nat.lt_or_ge s cfg.localStageNumber with hB1 | hB2
  · have hnf : GetNextFartherStage cfg s = cfg.localStageNumber := by
      unfold GetNextFartherStage
      rw [if_neg (by omega), if_pos hB1]
    have hul : upperStagesList cfg s = [cfg.localStageNumber, cfg.remoteStageNumber] := by
      unfold upperStagesList
      rw [if_neg (by omega), if_pos hB1, if_pos (by omega)]
      rfl
    have hl0 : cfg.localStageNumber ≠ 0 := by omega
    have hr0 : cfg.remoteStageNumber ≠ 0 := by omega
    have hlr2 : cfg.localStageNumber ≤ cfg.remoteStageNumber := by omega
    rw [hnf, hul]
    simp [e4, e3, e2, e1, e0, hfar, hnfl, hnfr, syncToStage, stopAtFirstFail, hl0, hr0, hlr2]
  rcases Nat.lt_or_ge s cfg.remoteStageNumber with hC1 | hC2
  · have hnf : GetNextFartherStage cfg s = cfg.remoteStageNumber := by
      unfold GetNextFartherStage
      rw [if_neg (by omega), if_neg (by omega), if_pos hC1]
    have hul : upperStagesList cfg s = [cfg.remoteStageNumber] := by
      unfold upperStagesList
      rw [if_neg (by omega), if_neg (by omega), if_pos hC1]
      rfl
    have hr0 : cfg.remoteStageNumber ≠ 0 := by omega
    rw [hnf, hul]
    simp [e4, e3, e2, e1, e0, hfar, hnfr, syncToStage, stopAtFirstFail, hr0]
  · have hnf : GetNextFartherStage cfg s = 0 := by
      unfold GetNextFartherStage
      rw [if_neg (by omega), if_neg (by omega), if_neg (by omega)]
    have hul : upperStagesList cfg s = [] := by
      unfold upperStagesList
      rw [if_neg (by omega), if_neg (by omega), if_neg (by omega)]
      rfl
    rw [hnf, hul]
    simp [e4, stopAtFirstFail]

/-- C6 counterexample: with the persistence stage configured to the
local tier (2) and every sync succeeding, SyncToUpperStages on a
record at stage 1 copies to stages 2 and 3: the loop runs to the
farthest configured stage, not only up to and including the
persistence stage as the claim states. -/
theorem c6_sync_beyond_persistence_counterexample :
    (SyncToUpperStages persistenceTwoConfig allOkEnv ⟨"a", "a", 1, 0, 0⟩).2 = [2, 3] ∧
      persistenceTwoConfig.persistenceStage = 2 := by
  constructor
  · decide
  · rfl

/-- C6 amended: SyncToUpperStages is a no-op when auto-sync is
disabled; otherwise, under the record write lock, it invokes the
stage-to-stage copy for each configured stage strictly above the
record's current stage, in increasing stage order up to and including
the farthest configured stage (which equals the persistence stage only
under the default configuration), stopping at the first copy that
fails; the record, including its stage, is unchanged when it
returns. -/
theorem c6_SyncToUpperStages_characterization (cfg : Config) (env : Env) (d : Database)
    (hml : cfg.memoryStageNumber < cfg.localStageNumber)
    (hlr : cfg.localStageNumber < cfg.remoteStageNumber) :
    (SyncToUpperStages cfg env d).1 = d ∧
    (cfg.autoSyncEnabled = false → (SyncToUpperStages cfg env d).2 = []) ∧
    (cfg.autoSyncEnabled = true →
      (SyncToUpperStages cfg env d).2
        = stopAtFirstFail env.syncOk (upperStagesList cfg d.stage)) := by
  refine ⟨?_, ?_, ?_⟩
  · unfold SyncToUpperStages
    split_ifs <;> rfl
  · intro h
    unfold SyncToUpperStages
    rw [h]
    rfl
  · intro h
    unfold SyncToUpperStages
    rw [h]
    show syncUpperLoop cfg env 4 (GetNextFartherStage cfg d.stage)
      = stopAtFirstFail env.syncOk (upperStagesList cfg d.stage)
    exact syncUpperLoop_eq_stopAtFirstFail cfg env d.stage hml hlr

/-- C6 witness: the amended statement at a record at stage 1 under the
default configuration. -/
theorem c6_witness :
    (SyncToUpperStages defaultConfig allOkEnv ⟨"a", "a", 1, 0, 0⟩).1 = ⟨"a", "a", 1, 0, 0⟩ ∧
      (SyncToUpperStages defaultConfig allOkEnv ⟨"a", "a", 1, 0, 0⟩).2
        = stopAtFirstFail allOkEnv.syncOk (upperStagesList defaultConfig 1) :=
  ⟨(c6_SyncToUpperStages_characterization defaultConfig allOkEnv ⟨"a", "a", 1, 0, 0⟩
      (by decide) (by decide)).1,
   (c6_SyncToUpperStages_characterization defaultConfig allOkEnv ⟨"a", "a", 1, 0, 0⟩
      (by decide) (by decide)).2.2 rfl⟩

theorem deleteStageLoop_dbStage_zero (fuel : Nat) : ∀ s, deleteStageLoop fuel s 0 = none := by
  induction fuel with
  | zero => intro s; rfl
  | succ f ih =>
    intro s
    rw [deleteStageLoop]
    rw [if_pos (Nat.zero_le s), ih (decUint64 s)]

theorem descRange_of_lt (p lo : Nat) (h : p < lo) : descRange p lo = [] := by
  unfold descRange
  have hz : p + 1 - lo = 0 := by omega
  rw [hz]
  rfl

theorem descRange_cons (p lo : Nat) (h1 : 1 ≤ lo) (h2 : lo ≤ p) :
    descRange p lo = p :: descRange (p - 1) lo := by
  unfold descRange
  have ha : p + 1 - lo = (p - lo) + 1 := by omega
  have hb : (p - 1) + 1 - lo = p - lo := by omega
  rw [ha, hb]
  rfl

theorem deleteStageLoop_eq_descRange (f : Nat) : ∀ s lo, 1 ≤ lo → s + 1 ≤ f + lo →
    deleteStageLoop (f + 1) s lo = some (descRange s lo) := by
  induction f with
  | zero =>
    intro s lo h1 h2
    rw [deleteStageLoop]
    rw [if_neg (by omega), descRange_of_lt s lo (by omega)]
  | succ f ih =>
    intro s lo h1 h2
    rw [deleteStageLoop]
    by_cases hle : lo ≤ s
    · rw [if_pos hle]
      have hdec : decUint64 s = s - 1 := by
        unfold decUint64
        rw [if_neg (by omega)]
      rw [hdec, ih (s - 1) lo h1 (by omega), descRange_cons s lo h1 hle]
    · rw [if_neg hle, descRange_of_lt s lo (by omega)]

theorem descFrom_mem_le : ∀ (n p x : Nat), x ∈ descFrom p n → x ≤ p := by
  intro n
  induction n with
  | zero =>
    intro p x hx
    simp [descFrom] at hx
  | succ n ih =>
    intro p x hx
    rw [descFrom] at hx
    rcases List.mem_cons.mp hx with h | h
    · omega
    · have := ih (p - 1) x h
      omega

theorem descFrom_nodup : ∀ (n p : Nat), n ≤ p + 1 → (descFrom p n).Nodup := by
  intro n
  induction n with
  | zero => intro p _; exact List.nodup_nil
  | succ n ih =>
    intro p h
    rw [descFrom]
    refine List.nodup_cons.mpr ⟨?_, ih (p - 1) (by omega)⟩
    intro hmem
    cases n with
    | zero => simp [descFrom] at hmem
    | succ m =>
      have hle := descFrom_mem_le (m + 1) (p - 1) p hmem
      omega

theorem descRange_nodup (p lo : Nat) : (descRange p lo).Nodup :=
  descFrom_nodup (p + 1 - lo) p (by omega)

theorem Delete_stage_zero (cfg : Config) (dbs : Option (List Database)) (d : Database)
    (h : d.stage = 0) : Delete cfg dbs d = none := by
  unfold Delete
  rw [h, deleteStageLoop_dbStage_zero]

/-- C7 counterexample: for a record at stage 0 (which is at most the
persistence stage) the Go loop condition stage >= database.Stage is
always true for an unsigned counter, the decrement wraps at zero and
the loop never terminates, so RemoveFromStage is not called exactly
once per stage and the record is never unlinked; the model returns
none (no termination within a full 64-bit wrap of the counter). -/
theorem c7_Delete_stage_zero_counterexample :
    Delete defaultConfig (some [⟨"/a", "a", 0, 0, 0⟩]) ⟨"/a", "a", 0, 0, 0⟩ = none :=
  Delete_stage_zero defaultConfig (some [⟨"/a", "a", 0, 0, 0⟩]) ⟨"/a", "a", 0, 0, 0⟩ rfl

/-- C7 amended: for every database record whose current stage is at
least 1 and at most the persistence stage, Delete calls
RemoveFromStage exactly once for each stage from the persistence stage
down to and including the record's current stage; an error from any
individual RemoveFromStage call does not abort the iteration or
prevent the record from being unlinked from the registry, and only a
failure to unlink the record is returned as Delete's error. -/
theorem c7_Delete_removal_and_unlink (cfg : Config) (dbs : Option (List Database))
    (d : Database) (h1 : 1 ≤ d.stage) (h2 : d.stage ≤ cfg.persistenceStage)
    (h3 : cfg.persistenceStage < 2 ^ 64) :
    Delete cfg dbs d
      = some { removeCalls := descRange cfg.persistenceStage d.stage,
               registry := (removeFromDatabasesList dbs d.name).1,
               isError := (removeFromDatabasesList dbs d.name).2 } ∧
      (descRange cfg.persistenceStage d.stage).Nodup := by
  constructor
  · unfold Delete
    rw [show (2 : Nat) ^ 64 = (2 ^ 64 - 1) + 1 from by norm_num]
    rw [deleteStageLoop_eq_descRange (2 ^ 64 - 1) cfg.persistenceStage d.stage h1 (by omega)]
  · exact descRange_nodup _ _

/-- C7 witness: the amended statement for a record at stage 2 with
persistence stage 3: removal runs for stages 3 then 2 and the record
is unlinked without error. -/
theorem c7_witness :
    Delete defaultConfig (some []) ⟨"./storage/a.db", "a", 2, 0, 0⟩
        = some { removeCalls := [3, 2], registry := some [], isError := false } ∧
      (descRange defaultConfig.persistenceStage 2).Nodup :=
  c7_Delete_removal_and_unlink defaultConfig (some []) ⟨"./storage/a.db", "a", 2, 0, 0⟩
    (by decide) (by decide) (by decide)

/-- C9 confirmed: for every record whose current stage is at least 1,
the stage-removal loop in Delete terminates (the unsigned countdown
stops before wrapping below zero), given that the persistence stage is
a 64-bit unsigned value. -/
theorem c9_Delete_terminates (cfg : Config) (dbs : Option (List Database))
    (d : Database) (h1 : 1 ≤ d.stage) (h2 : cfg.persistenceStage < 2 ^ 64) :
    (Delete cfg dbs d).isSome = true := by
  unfold Delete
  rw [show (2 : Nat) ^ 64 = (2 ^ 64 - 1) + 1 from by norm_num]
  rw [deleteStageLoop_eq_descRange (2 ^ 64 - 1) cfg.persistenceStage d.stage h1 (by omega)]
  rfl

/-- C9 witness: Delete terminates for a concrete record at stage 1. -/
theorem c9_witness :
    (Delete defaultConfig (some []) ⟨"./storage/b.db", "b", 1, 0, 0⟩).isSome = true :=
  c9_Delete_terminates defaultConfig (some []) ⟨"./storage/b.db", "b", 1, 0, 0⟩
    (by decide) (by decide)

/-- C10 witness: the amended statement at a concrete local-stage
record. -/
theorem c10_witness :
    (GetConnectionString defaultConfig ⟨"./storage/a.db", "a", 2, 0, 0⟩).2 = none ∧
      (GetConnectionString defaultConfig ⟨"./storage/a.db", "a", 2, 0, 0⟩).1
        = "file:" ++ "./storage/a.db" ++ "?vfs=disk" :=
  ⟨(c10_GetConnectionString_total defaultConfig ⟨"./storage/a.db", "a", 2, 0, 0⟩
      (by decide) (by decide)).1,
   (c10_GetConnectionString_total defaultConfig ⟨"./storage/a.db", "a", 2, 0, 0⟩
      (by decide) (by decide)).2.2.1 rfl⟩

end Persisto
